import Mathlib

/-!
Verification development for the S1_processing library.

The definitions below are a shallow embedding of the Python sources:

* `src/S1_product_info/S1_product_info.py` — basename parsing (`get_S1_product_info`);
* `src/S1_processing_config/S1_processing_config.py` — the static registry of
  SNAP graph files, embedded as the attribute-lookup map `S1_conf_attr`;
* `src/S1_processing/S1_feature_extraction.py` — the staged extraction
  functions `get_S1_intensity`, `get_S1_IA`, `get_S1_lat_lon`,
  `get_S1_swath_mask` (filesystem effects modelled by an explicit record of
  the paths they consult and touch), and the per-pixel channel scaling of
  `make_S1_rgb` (real arithmetic modelled by `ℚ`);
* `src/S1_processing/S1_swath_mask.py` — the glob-based annotation lookup and
  the swath-mask raster builder (`get_swath_mask`), with numpy slice
  assignment embedded via Python slice-bound normalization;
* `src/S1_processing/utils.py` — `get_GPT_path`.

Machine integers of the numpy `uint8` rasters are modelled as `Nat` with an
explicit `% 256`; Python exceptions and heterogeneous returns are modelled by
explicit result types.
-/

/-- Characters stripped by Python `int(str)` before parsing (ASCII whitespace). -/
def isPySpace (c : Char) : Bool :=
  c = ' ' || c = '\t' || c = '\n' || c = '\r' || c = '\x0b' || c = '\x0c'

/-- Run of decimal digits with single underscores permitted between digits,
accumulating the value, as accepted by Python `int(str)` after the first digit. -/
def pyDigitsRun (acc : Nat) : List Char → Option Nat
  | [] => some acc
  | '_' :: c :: cs =>
    if c.isDigit then pyDigitsRun (acc * 10 + (c.toNat - '0'.toNat)) cs else none
  | ['_'] => none
  | c :: cs =>
    if c.isDigit then pyDigitsRun (acc * 10 + (c.toNat - '0'.toNat)) cs else none

/-- Parse a nonempty digit run (underscores allowed between digits) to its value. -/
def pyDigits : List Char → Option Nat
  | c :: rest => if c.isDigit then pyDigitsRun (c.toNat - '0'.toNat) rest else none
  | [] => none

/-- Strip leading and trailing whitespace, as Python `int(str)` does. -/
def pyStrip (s : String) : List Char :=
  ((s.toList.dropWhile isPySpace).reverse.dropWhile isPySpace).reverse

/-- Python `int(str)`: optional sign, then digits; `none` models `ValueError`. -/
def pyInt? (s : String) : Option Int :=
  match pyStrip s with
  | '+' :: rest => (pyDigits rest).map (fun n => (n : Int))
  | '-' :: rest => (pyDigits rest).map (fun n => -(n : Int))
  | rest => (pyDigits rest).map (fun n => (n : Int))

/-- Python `str.upper()` for the ASCII strings the code handles. -/
def pyUpper (s : String) : String :=
  ⟨s.toList.map Char.toUpper⟩

/-- Python `str.lower()` for the ASCII strings the code handles. -/
def pyLower (s : String) : String :=
  ⟨s.toList.map Char.toLower⟩

/-- Accumulator loop of `pySplit`. -/
def splitOnCharGo (sep : Char) : List Char → List Char → List (List Char)
  | acc, [] => [acc.reverse]
  | acc, c :: cs =>
    if c = sep then acc.reverse :: splitOnCharGo sep [] cs
    else splitOnCharGo sep (c :: acc) cs

/-- Python `str.split(sep)` for a single-character separator (the code only
splits on `'_'`, `'x'` and `'/'`). -/
def pySplit (sep : Char) (s : String) : List String :=
  (splitOnCharGo sep [] s.toList).map (fun l => ⟨l⟩)

/-- Final path component, as `pathlib.PurePath.name` for paths without a
trailing slash. -/
def pathFinalComp (p : String) : String :=
  (pySplit '/' p).getLastD p

/-- Index of the last `'.'` in a character list, if any. -/
def lastDotIdx (cs : List Char) : Option Nat :=
  match cs.reverse.findIdx? (· = '.') with
  | none => none
  | some j => some (cs.length - 1 - j)

/-- Python `pathlib.PurePath.stem`: the final component without its last
suffix; the dot counts only when strictly inside the name. -/
def pathStem (p : String) : String :=
  let name := pathFinalComp p
  let cs := name.toList
  match lastDotIdx cs with
  | some i => if 0 < i ∧ i < cs.length - 1 then ⟨cs.take i⟩ else name
  | none => name

/-- Python `pathlib.PurePath.suffix`: the last extension of the final
component including the dot, or `""`. -/
def pathSuffix (p : String) : String :=
  let name := pathFinalComp p
  let cs := name.toList
  match lastDotIdx cs with
  | some i => if 0 < i ∧ i < cs.length - 1 then ⟨cs.drop i⟩ else ""
  | none => ""

/-- Python `str.lstrip('.')`: remove all leading dots. -/
def lstripDot (s : String) : String :=
  ⟨s.toList.dropWhile (· = '.')⟩

/-- Result of `get_S1_product_info` (file `S1_product_info.py`, lines 54-106):
either the Python sentinel triple `([], [], [])` returned on every failure
path, or the resolved `(product_mode, product_type, product_pols)`. -/
inductive ProductInfo where
  | unresolved
  | resolved (mode ptype : String) (pols : List String)
deriving DecidableEq

/-- Mode field of the result; the sentinel's field is empty. -/
def ProductInfo.mode : ProductInfo → String
  | .unresolved => ""
  | .resolved m _ _ => m

/-- Type field of the result; the sentinel's field is empty. -/
def ProductInfo.ptype : ProductInfo → String
  | .unresolved => ""
  | .resolved _ t _ => t

/-- Polarization list of the result; the sentinel's field is the empty list. -/
def ProductInfo.pols : ProductInfo → List String
  | .unresolved => []
  | .resolved _ _ p => p

/-- Embedding of `get_S1_product_info` (`S1_product_info.py`, lines 54-106):
split the basename on `'_'`; an `IndexError` on fields 1..3 (fewer than four
fields) is caught and yields the sentinel; then the polarization-code table
and the mode check, each failure yielding the sentinel. -/
def get_S1_product_info (f_base : String) : ProductInfo :=
  let parts := pySplit '_' f_base
  if parts.length < 4 then .unresolved
  else
    let product_mode := parts.getD 1 ""
    let product_type := parts.getD 2 ""
    let product_pol := parts.getD 3 ""
    let pols? : Option (List String) :=
      if product_pol = "1SDH" then some ["HH", "HV"]
      else if product_pol = "1SSH" then some ["HH"]
      else if product_pol = "1SDV" then some ["VV", "VH"]
      else if product_pol = "1SSV" then some ["VV"]
      else none
    match pols? with
    | none => .unresolved
    | some product_pols =>
      if product_mode ∉ ["SM", "IW", "EW", "WV"] then .unresolved
      else .resolved product_mode product_type product_pols

/-- Embedding of the `ML` parsing in `get_S1_intensity`
(`S1_feature_extraction.py`, lines 160-166): `int(ML.split('x')[0])` and
`int(ML.split('x')[1])`; any `IndexError` or `ValueError` (modelled as `none`)
is caught and leads to the error return. -/
def mlLooks (ML : String) : Option (Int × Int) :=
  let parts := pySplit 'x' ML
  match parts.get? 0, parts.get? 1 with
  | some s0, some s1 =>
    match pyInt? s0, pyInt? s1 with
    | some a, some b => some (a, b)
    | _, _ => none
  | _, _ => none

/-- Whether the multilook string passes both the parse (lines 160-166) and the
oddness check (lines 171-173) of `get_S1_intensity`; Python `%` on a positive
modulus agrees with `Int.emod`. -/
def mlAccept (ML : String) : Bool :=
  match mlLooks ML with
  | none => false
  | some (looks_rg, looks_az) => ¬(looks_rg % 2 = 0 ∨ looks_az % 2 = 0)

/-- Embedding of the module-level attributes of `S1_processing_config.py`
(lines 32-64): the name built by `get_S1_intensity` is resolved by `eval`
against these attributes; an absent attribute raises, which the caller turns
into the unsupported-configuration error. -/
def S1_conf_attr (name : String) : Option String :=
  if name = "snap_S1_EW_GRDM_NR_Cal_Spk_XX" then some "S1_EW_GRDM/S1_EW_GRDM_NR_Cal_Spk_XX.xml"
  else if name = "snap_S1_EW_GRDM_NR_Cal_Spk_db_XX" then some "S1_EW_GRDM/S1_EW_GRDM_NR_Cal_Spk_dB_XX.xml"
  else if name = "snap_S1_EW_GRDM_NR_Cal_XX" then some "S1_EW_GRDM/S1_EW_GRDM_NR_Cal_XX.xml"
  else if name = "snap_S1_EW_GRDM_NR_Cal_db_XX" then some "S1_EW_GRDM/S1_EW_GRDM_NR_Cal_dB_XX.xml"
  else if name = "snap_S1_EW_GRDH_NR_Cal_Spk_XX" then some "S1_EW_GRDM/S1_EW_GRDH_NR_Cal_Spk_XX.xml"
  else if name = "snap_S1_EW_GRDH_NR_Cal_Spk_db_XX" then some "S1_EW_GRDM/S1_EW_GRDH_NR_Cal_Spk_dB_XX.xml"
  else if name = "snap_S1_EW_GRDH_NR_Cal_XX" then some "S1_EW_GRDM/S1_EW_GRDH_NR_Cal_XX.xml"
  else if name = "snap_S1_EW_GRDH_NR_Cal_db_XX" then some "S1_EW_GRDM/S1_EW_GRDH_NR_Cal_dB_XX.xml"
  else if name = "snap_S1_IW_GRDH_NR_Cal_Spk_XX" then some "S1_IW_GRDM/S1_IW_GRDH_NR_Cal_Spk_XX.xml"
  else if name = "snap_S1_IW_GRDH_NR_Cal_Spk_db_XX" then some "S1_IW_GRDM/S1_IW_GRDH_NR_Cal_Spk_dB_XX.xml"
  else if name = "snap_S1_IW_GRDH_NR_Cal_XX" then some "S1_IW_GRDM/S1_IW_GRDH_NR_Cal_XX.xml"
  else if name = "snap_S1_IW_GRDH_NR_Cal_db_XX" then some "S1_IW_GRDM/S1_IW_GRDH_NR_Cal_dB_XX.xml"
  else if name = "snap_S1_lat" then some "S1_meta/S1_lat.xml"
  else if name = "snap_S1_lon" then some "S1_meta/S1_lon.xml"
  else if name = "snap_S1_IA" then some "S1_meta/S1_IA.xml"
  else none

/-- Python return values and exceptions of the staged extraction functions:
`True`, `False`, implicit `None`, or a raised exception. -/
inductive PyRet where
  | retTrue
  | retFalse
  | retNone
  | raised (exn : String)
deriving DecidableEq

/-- Filesystem and external-process state consulted and touched by the staged
extraction functions of `S1_feature_extraction.py`.  Only existence of the
relevant paths is tracked: `files` lists the artifact file names present in
`feat_folder`; `tmp_exists` is `feat_folder/tmp`; `parent_tmp_exists` is the
`tmp` directory next to `feat_folder` used by the swath-mask zip branch;
`graph_files` lists the files present under the config `snap_graphs` folder;
the two zip flags state whether the input zip contains a `manifest.safe`
member and an annotation member for the first product polarization. -/
structure FS where
  gpt_exists : Bool
  safe_exists : Bool
  feat_exists : Bool
  files : List String
  tmp_exists : Bool
  parent_tmp_exists : Bool
  graph_files : List String
  zip_has_manifest : Bool
  zip_has_annotation : Bool
deriving DecidableEq

/-- Create a file name in a directory listing, keeping the listing a set. -/
def insertFile (n : String) (fsl : List String) : List String :=
  if n ∈ fsl then fsl else n :: fsl

/-- Result of one staged invocation: the Python return value, the final
state, and the number of `os.system` engine invocations performed. -/
structure RunOut where
  ret : PyRet
  fs : FS
  engine_calls : Nat
deriving DecidableEq

/-- Embedding of `get_S1_intensity` (`S1_feature_extraction.py`, lines
30-248).  The `GPT` argument is represented by `fs.gpt_exists`
(`os.path.exists(GPT)` is its only use besides command building); the engine
invocation and the subsequent copies are modelled as the code assumes them to
behave (outputs present), since the exit status is never checked. -/
def get_S1_intensity (S1_safe_zip intensity ML : String)
    (dB overwrite dry_run : Bool) (fs : FS) : RunOut :=
  if intensity ∉ ["HH", "HV", "VH", "VV"] then ⟨.retFalse, fs, 0⟩
  else if ¬fs.gpt_exists then ⟨.retFalse, fs, 0⟩
  else if ¬fs.safe_exists then ⟨.retFalse, fs, 0⟩
  else
    let S1_base := pathStem S1_safe_zip
    let S1_file_type := lstripDot (pathSuffix S1_safe_zip)
    let info := get_S1_product_info S1_base
    if intensity ∉ info.pols then ⟨.retFalse, fs, 0⟩
    else if S1_file_type ∉ ["SAFE", "zip"] then ⟨.retFalse, fs, 0⟩
    else
      let dB_str := if dB then "_dB" else ""
      let outfile_basename := "Sigma0_" ++ intensity ++ dB_str
      let img := outfile_basename ++ ".img"
      let hdr := outfile_basename ++ ".hdr"
      if img ∈ fs.files ∧ ¬overwrite then ⟨.retTrue, fs, 0⟩
      else
        let fs1 := { fs with feat_exists := true, tmp_exists := true }
        match mlLooks ML with
        | none => ⟨.retFalse, fs1, 0⟩
        | some (looks_rg, looks_az) =>
          if looks_rg % 2 = 0 ∨ looks_az % 2 = 0 then ⟨.retFalse, fs1, 0⟩
          else
            let look_str := if looks_rg > 1 then "_Spk" else ""
            let key := "snap_S1_" ++ info.mode ++ "_" ++ info.ptype ++
              "_NR_Cal" ++ look_str ++ dB_str ++ "_XX"
            match S1_conf_attr key with
            | none => ⟨.retFalse, fs1, 0⟩
            | some snap_graph_file =>
              if snap_graph_file ∉ fs.graph_files then ⟨.retFalse, fs1, 0⟩
              else if dry_run then ⟨.retTrue, { fs1 with tmp_exists := false }, 0⟩
              else
                ⟨.retTrue,
                  { fs1 with
                    tmp_exists := false,
                    files := insertFile hdr (insertFile img fs.files) }, 1⟩

/-- Embedding of `get_S1_IA` (`S1_feature_extraction.py`, lines 256-416). -/
def get_S1_IA (S1_safe_zip : String) (overwrite dry_run : Bool) (fs : FS) :
    RunOut :=
  if ¬fs.gpt_exists then ⟨.retFalse, fs, 0⟩
  else if ¬fs.safe_exists then ⟨.retFalse, fs, 0⟩
  else
    let S1_file_type := lstripDot (pathSuffix S1_safe_zip)
    if S1_file_type ∉ ["SAFE", "zip"] then ⟨.retFalse, fs, 0⟩
    else if "IA.img" ∈ fs.files ∧ ¬overwrite then ⟨.retTrue, fs, 0⟩
    else
      let fs1 := { fs with feat_exists := true, tmp_exists := true }
      if "S1_meta/S1_IA.xml" ∉ fs.graph_files then ⟨.retFalse, fs1, 0⟩
      else if dry_run then ⟨.retTrue, { fs1 with tmp_exists := false }, 0⟩
      else
        ⟨.retTrue,
          { fs1 with
            tmp_exists := false,
            files := insertFile "IA.hdr" (insertFile "IA.img" fs.files) }, 1⟩

/-- Embedding of `get_S1_lat_lon` (`S1_feature_extraction.py`, lines
424-610).  The function returns `None` on the skip, dry-run, and completion
paths, `False` on the early precondition failures, and raises
`FileNotFoundError` when a graph template is missing. -/
def get_S1_lat_lon (S1_safe_zip : String) (overwrite dry_run : Bool)
    (fs : FS) : RunOut :=
  if ¬fs.gpt_exists then ⟨.retFalse, fs, 0⟩
  else if ¬fs.safe_exists then ⟨.retFalse, fs, 0⟩
  else
    let S1_file_type := lstripDot (pathSuffix S1_safe_zip)
    if S1_file_type ∉ ["SAFE", "zip"] then ⟨.retFalse, fs, 0⟩
    else if "lat.img" ∈ fs.files ∧ "lon.img" ∈ fs.files ∧ ¬overwrite then
      ⟨.retNone, fs, 0⟩
    else
      let fs1 := { fs with feat_exists := true, tmp_exists := true }
      if "S1_meta/S1_lat.xml" ∉ fs.graph_files then
        ⟨.raised "FileNotFoundError", fs1, 0⟩
      else if "S1_meta/S1_lon.xml" ∉ fs.graph_files then
        ⟨.raised "FileNotFoundError", fs1, 0⟩
      else if dry_run then ⟨.retNone, { fs1 with tmp_exists := false }, 0⟩
      else
        ⟨.retNone,
          { fs1 with
            tmp_exists := false,
            files := insertFile "lon.hdr" (insertFile "lon.img"
              (insertFile "lat.hdr" (insertFile "lat.img" fs.files))) }, 2⟩

/-- Embedding of `get_S1_swath_mask` (`S1_feature_extraction.py`, lines
618-811).  The raster values written are embedded separately by
`build_swath_mask`; here the control flow and state effects are modelled.
In the `SAFE` branch the source reads the local variable `annotation_path`
(line 750) which is only ever assigned in the zip branch, so that branch
raises `UnboundLocalError`; in the zip branch a product basename that did not
resolve raises `IndexError` at `p_pol[0]` (line 731, assuming a nonempty zip
listing).  The ENVI driver creates both the `.img` and the `.hdr` file. -/
def get_S1_swath_mask (S1_safe_zip : String) (overwrite : Bool) (fs : FS) :
    RunOut :=
  if ¬fs.safe_exists then ⟨.retFalse, fs, 0⟩
  else
    let S1_base := pathStem S1_safe_zip
    let S1_file_type := lstripDot (pathSuffix S1_safe_zip)
    let info := get_S1_product_info S1_base
    if S1_file_type ∉ ["SAFE", "zip"] then ⟨.retFalse, fs, 0⟩
    else if "swath_mask.img" ∈ fs.files ∧ ¬overwrite then ⟨.retTrue, fs, 0⟩
    else
      let fs1 := { fs with feat_exists := true }
      if S1_file_type = "SAFE" then ⟨.raised "UnboundLocalError", fs1, 0⟩
      else
        let fs2 := { fs1 with parent_tmp_exists := true }
        if info.pols = [] then ⟨.raised "IndexError", fs2, 0⟩
        else if ¬fs.zip_has_annotation then ⟨.retFalse, fs2, 0⟩
        else if ¬fs.zip_has_manifest then ⟨.retFalse, fs2, 0⟩
        else if info.mode ≠ "EW" ∧ info.mode ≠ "IW" then ⟨.retFalse, fs2, 0⟩
        else
          ⟨.retTrue,
            { fs2 with
              parent_tmp_exists := false,
              files := insertFile "swath_mask.hdr"
                (insertFile "swath_mask.img" fs.files) }, 0⟩

/-- Two-dimensional uint8 raster: the shape of the numpy array plus its
values as a function of (row, column); values outside the shape stay 0. -/
structure Grid where
  rows : Nat
  cols : Nat
  val : Nat → Nat → Nat

/-- Raster of zeros, as `numpy.zeros((rows, cols), dtype=uint8)`. -/
def Grid.zeros (r c : Nat) : Grid :=
  ⟨r, c, fun _ _ => 0⟩

/-- Python slice-bound normalization for an axis of length `n`: negative
bounds count from the end, and bounds are clamped into `[0, n]`. -/
def sliceNorm (n : Nat) (i : Int) : Nat :=
  if i < 0 then (n + i).toNat else min i.toNat n

/-- Membership of index `j` in the normalized slice `[a : b]` of an axis of
length `n`. -/
def inSlice (n : Nat) (a b : Int) (j : Nat) : Prop :=
  sliceNorm n a ≤ j ∧ j < sliceNorm n b

instance (n : Nat) (a b : Int) (j : Nat) : Decidable (inSlice n a b j) :=
  inferInstanceAs (Decidable (_ ∧ _))

/-- Embedding of the numpy assignment `mask[y1:y2+1, x1:xstop] = True`
(`S1_swath_mask.py`, line 95): write 1 on the normalized region, leave the
rest unchanged. -/
def setBox (g : Grid) (y1 y2 x1 xstop : Int) : Grid :=
  { g with
    val := fun y x =>
      if inSlice g.rows y1 (y2 + 1) y ∧ inSlice g.cols x1 xstop x then 1
      else g.val y x }

/-- One `swathBounds` record of the annotation document: the swath name from
the enclosing `swathMerge` element and the four boundary integers. -/
structure SwathBoundsRec where
  swath : String
  firstAzimuthLine : Int
  lastAzimuthLine : Int
  firstRangeSample : Int
  lastRangeSample : Int

/-- Parsed content of one per-polarization annotation document: the two
scalar dimensions and the `swathBounds` records in document order. -/
structure AnnotationData where
  numberOfLines : Nat
  numberOfSamples : Nat
  swathBounds : List SwathBoundsRec

/-- Loop body of `get_swath_mask` (`S1_swath_mask.py`, lines 90-95): the
range stop is `min(lastRangeSample + 1, cols)` computed before slicing. -/
def applyBounds (cols : Nat) (m : Grid) (sb : SwathBoundsRec) : Grid :=
  setBox m sb.firstAzimuthLine sb.lastAzimuthLine sb.firstRangeSample
    (min (sb.lastRangeSample + 1) (cols : Int))

/-- Embedding of `get_swath_mask` (`S1_swath_mask.py`, lines 50-97) after the
annotation document has been located and parsed: zeros of the annotated
shape, then one slice assignment per `swathBounds` record of the requested
swath. -/
def get_swath_mask (ann : AnnotationData) (swath : String) : Grid :=
  (ann.swathBounds.filter (fun sb => sb.swath == swath)).foldl
    (applyBounds ann.numberOfSamples)
    (Grid.zeros ann.numberOfLines ann.numberOfSamples)

/-- Embedding of `get_swath_mask` including its input assert (line 71): a
polarization whose upper-case form is not a valid channel raises
`AssertionError`, modelled as `none`. -/
def get_swath_mask_checked (ann : AnnotationData) (swath polarization : String) :
    Option Grid :=
  if pyUpper polarization ∈ ["HH", "HV", "VH", "VV"] then
    some (get_swath_mask ann swath)
  else none

/-- Whether one `swathBounds` record covers the pixel `(y, x)` on a raster of
shape `rows × cols`, with the range stop clamped by `annCols` as the code
does before slicing. -/
def recCovers (rows cols annCols : Nat) (sb : SwathBoundsRec) (y x : Nat) :
    Prop :=
  inSlice rows sb.firstAzimuthLine (sb.lastAzimuthLine + 1) y ∧
  inSlice cols sb.firstRangeSample (min (sb.lastRangeSample + 1)
    (annCols : Int)) x

instance (rows cols annCols : Nat) (sb : SwathBoundsRec) (y x : Nat) :
    Decidable (recCovers rows cols annCols sb y x) :=
  inferInstanceAs (Decidable (_ ∧ _))

/-- Whether the pixel `(y, x)` is covered by some bounding box of the given
swath, under the same normalization and clamping the code applies. -/
def coversPt (ann : AnnotationData) (swath : String) (y x : Nat) : Prop :=
  ∃ sb ∈ ann.swathBounds.filter (fun sb => sb.swath == swath),
    recCovers ann.numberOfLines ann.numberOfSamples ann.numberOfSamples sb y x

instance (ann : AnnotationData) (swath : String) (y x : Nat) :
    Decidable (coversPt ann swath y x) :=
  inferInstanceAs (Decidable (∃ _ ∈ _, _))

/-- Elementwise uint8 addition of two equal-shaped rasters. -/
def gridAddU8 (a b : Grid) : Grid :=
  ⟨a.rows, a.cols, fun y x => (a.val y x + b.val y x) % 256⟩

/-- uint8 scaling of a raster by a small nonnegative integer. -/
def gridSmulU8 (k : Nat) (m : Grid) : Grid :=
  ⟨m.rows, m.cols, fun y x => (k * m.val y x) % 256⟩

/-- Loop of `get_S1_swath_mask` (`S1_feature_extraction.py`, lines 769-775)
from the second swath on: `swath_mask + swath_number * get_swath_mask(...)`. -/
def build_swath_mask_go (ann : AnnotationData) :
    Grid → Nat → List String → Grid
  | acc, _, [] => acc
  | acc, i, s :: rest =>
    build_swath_mask_go ann
      (gridAddU8 acc (gridSmulU8 i (get_swath_mask ann s))) (i + 1) rest

/-- Embedding of the swath-mask accumulation loop (`S1_feature_extraction.py`,
lines 769-775): the first swath's mask, then the scaled masks of the
remaining swaths added in.  For the empty swath list the Python loop body
never runs and the subsequent read of `swath_mask` would raise; the supported
modes always supply a nonempty list, so that case is given a 0-size raster. -/
def build_swath_mask (ann : AnnotationData) : List String → Grid
  | [] => Grid.zeros 0 0
  | s :: rest => build_swath_mask_go ann (get_swath_mask ann s) 2 rest

/-- Embedding of the swath-name selection (`S1_feature_extraction.py`, lines
756-763): `EW` and `IW` have fixed ordered lists, anything else is the
unsupported-mode failure. -/
def swathNames (p_mode : String) : Option (List String) :=
  if p_mode = "EW" then some ["EW1", "EW2", "EW3", "EW4", "EW5"]
  else if p_mode = "IW" then some ["IW1", "IW2", "IW3"]
  else none

/-- Specification-side list of the 1-based ordinals of the swaths covering a
pixel, for the swath list starting at ordinal `i`. -/
def coveringOrdinals (ann : AnnotationData) (y x : Nat) :
    Nat → List String → List Nat
  | _, [] => []
  | i, s :: rest =>
    (if coversPt ann s y x then [i] else []) ++
      coveringOrdinals ann y x (i + 1) rest

/-- Glob matching with `'*'` wildcards, written with an explicit fuel
argument so the definition is structurally recursive; every recursive call
shrinks `ps.length + s.length`, so a fuel strictly above that sum never runs
out. -/
def globFuel : Nat → List Char → List Char → Bool
  | 0, _, _ => false
  | _ + 1, [], [] => true
  | _ + 1, [], _ :: _ => false
  | n + 1, '*' :: ps, [] => globFuel n ps []
  | n + 1, '*' :: ps, c :: cs => globFuel n ps (c :: cs) || globFuel n ('*' :: ps) cs
  | _ + 1, _ :: _, [] => false
  | n + 1, p :: ps, c :: cs => p == c && globFuel n ps cs

/-- Glob matching with `'*'` wildcards only, as used by the pattern
`s1*{pol}*.xml` of `annotation_path_from_manifest_path`. -/
def globMatch (ps s : List Char) : Bool :=
  globFuel (ps.length + s.length + 1) ps s

/-- Embedding of `annotation_path_from_manifest_path` (`S1_swath_mask.py`,
lines 20-45): glob the annotation folder (given as its listing) for
`s1*{polarization.lower()}*.xml` and take element `[0]` of the result;
`none` models the `IndexError` raised on an empty glob result. -/
def annotation_path_from_manifest_path (annotation_dir : List String)
    (polarization : String) : Option String :=
  (annotation_dir.filter (fun f =>
    globMatch ("s1*" ++ pyLower polarization ++ "*.xml").toList f.toList)).head?

/-- Lower clip `band[band < mn] = mn` of `make_S1_rgb`
(`S1_feature_extraction.py`, lines 971 and 973), per pixel. -/
def clipBelow (mn v : ℚ) : ℚ :=
  if v < mn then mn else v

/-- Upper clip `band[band > mx] = mx` of `make_S1_rgb`
(`S1_feature_extraction.py`, lines 972 and 974), per pixel. -/
def clipAbove (mx v : ℚ) : ℚ :=
  if v > mx then mx else v

/-- Per-pixel channel scaling of `make_S1_rgb` (`S1_feature_extraction.py`,
lines 971-979) on a value already converted to dB: clip below at `mn`, then
above at `mx`, then rescale affinely; real arithmetic modelled by `ℚ`. -/
def scale_channel (v mn mx newMn newMx : ℚ) : ℚ :=
  (clipAbove mx (clipBelow mn v) - mn) * ((newMx - newMn) / (mx - mn)) + newMn

/-- Content of one `.env` file as far as `get_GPT_path` consults it: the
value it assigns to `GPT`, if any. -/
structure DotenvFile where
  gpt : Option String
deriving DecidableEq

/-- Environment consulted by `get_GPT_path`: the optional `.env` file in the
installation `gpt_config` directory, the optional local `./.env`, and the
ambient process environment's `GPT` variable. -/
structure GptEnv where
  installEnv : Option DotenvFile
  localEnv : Option DotenvFile
  environGPT : Option String
deriving DecidableEq

/-- Hard-coded default GPT path (`utils.py`, line 34). -/
def GPT_default : String :=
  "/home/jo/esa_snap/snap/bin/gpt_test"

/-- Embedding of `get_GPT_path` (`utils.py`, lines 18-97): select a `.env`
file according to `dotenv_location` with fallback, `load_dotenv(...,
override=True)` (the file's entry shadows the ambient variable), then
`os.environ["GPT"]` with the `KeyError` caught and turned into the default. -/
def get_GPT_path (dotenv_location : String) (env : GptEnv) : String :=
  if dotenv_location ∉ ["installation", "local"] then GPT_default
  else
    let chosen : Option DotenvFile :=
      if dotenv_location = "installation" then
        match env.installEnv with
        | some f => some f
        | none => env.localEnv
      else env.localEnv
    match chosen with
    | none => GPT_default
    | some f =>
      match (match f.gpt with | some v => some v | none => env.environGPT) with
      | some v => v
      | none => GPT_default

/-- Synthetic annotation with two swaths overlapping in column 2 of rows 0-1. -/
def annEx : AnnotationData :=
  ⟨4, 6, [⟨"EW1", 0, 1, 0, 2⟩, ⟨"EW2", 0, 1, 2, 5⟩]⟩

/-- Synthetic annotation whose single bounding box exceeds the raster on both
axes and has a negative range start. -/
def annEx2 : AnnotationData :=
  ⟨4, 6, [⟨"EW1", 2, 99, -100, 99⟩]⟩

/-- Specification-side polarization table of the product-identity resolver. -/
def specPolTable (code : String) : Option (List String) :=
  if code = "1SDH" then some ["HH", "HV"]
  else if code = "1SSH" then some ["HH"]
  else if code = "1SDV" then some ["VV", "VH"]
  else if code = "1SSV" then some ["VV"]
  else none

/-- Target intensity artifact name `Sigma0_{POL}{_dB}.img` of
`get_S1_intensity`. -/
def intensityImg (intensity : String) (dB : Bool) : String :=
  "Sigma0_" ++ intensity ++ (if dB then "_dB" else "") ++ ".img"

/-- Header companion of the intensity artifact. -/
def intensityHdr (intensity : String) (dB : Bool) : String :=
  "Sigma0_" ++ intensity ++ (if dB then "_dB" else "") ++ ".hdr"

/-- Preconditions checked by `get_S1_intensity` before it touches the
filesystem: valid intensity name, engine executable present, input product
present, polarization supported by the product, supported file type. -/
def intensityPreOk (S1_safe_zip intensity : String) (fs : FS) : Prop :=
  intensity ∈ ["HH", "HV", "VH", "VV"] ∧ fs.gpt_exists = true ∧
  fs.safe_exists = true ∧
  intensity ∈ (get_S1_product_info (pathStem S1_safe_zip)).pols ∧
  lstripDot (pathSuffix S1_safe_zip) ∈ ["SAFE", "zip"]

instance (S1_safe_zip intensity : String) (fs : FS) :
    Decidable (intensityPreOk S1_safe_zip intensity fs) :=
  inferInstanceAs (Decidable (_ ∧ _))

/-- State with engine and product present, empty feature folder, no scratch. -/
def fsEx : FS :=
  ⟨true, true, false, [], false, false,
    ["S1_EW_GRDM/S1_EW_GRDM_NR_Cal_XX.xml"], true, true⟩

/-- State with engine and product present, no graph files listed. -/
def fsEx2 : FS :=
  ⟨true, true, false, [], false, false, [], true, true⟩

/-- Specification-side reading of the claim: the multilook string has exactly
the form `RxA` — splitting on `'x'` yields precisely two fields — with both
fields Python-parseable integers and both odd. -/
def specFormRxA (s : String) : Bool :=
  match pySplit 'x' s with
  | [rs, ts] =>
    match pyInt? rs, pyInt? ts with
    | some r, some t => (r % 2 != 0) && (t % 2 != 0)
    | _, _ => false
  | _ => false

/-- State with every artifact already present in the feature folder. -/
def fsAll : FS :=
  ⟨true, true, true,
    ["Sigma0_HH.img", "IA.img", "lat.img", "lon.img", "swath_mask.img"],
    false, false, [], true, true⟩

theorem sliceNorm_le (n : Nat) (i : Int) : sliceNorm n i ≤ n := by
  unfold sliceNorm
  split <;> omega

theorem foldl_applyBounds_rows (annCols : Nat) (l : List SwathBoundsRec)
    (m : Grid) : (l.foldl (applyBounds annCols) m).rows = m.rows := by
  induction l generalizing m with
  | nil => rfl
  | cons sb l ih => rw [List.foldl_cons, ih]; rfl

theorem foldl_applyBounds_cols (annCols : Nat) (l : List SwathBoundsRec)
    (m : Grid) : (l.foldl (applyBounds annCols) m).cols = m.cols := by
  induction l generalizing m with
  | nil => rfl
  | cons sb l ih => rw [List.foldl_cons, ih]; rfl

theorem foldl_applyBounds_val (annCols : Nat) (l : List SwathBoundsRec)
    (m : Grid) (y x : Nat) :
    (l.foldl (applyBounds annCols) m).val y x =
      if ∃ sb ∈ l, recCovers m.rows m.cols annCols sb y x then 1
      else m.val y x := by
  induction l generalizing m with
  | nil => simp
  | cons sb l ih =>
    rw [List.foldl_cons, ih]
    simp only [applyBounds, setBox, List.exists_mem_cons_iff, recCovers]
    by_cases hl : ∃ sb' ∈ l, recCovers m.rows m.cols annCols sb' y x
    · simp only [recCovers] at hl
      simp [hl]
    · simp only [recCovers] at hl
      simp [hl]

theorem get_swath_mask_rows (ann : AnnotationData) (s : String) :
    (get_swath_mask ann s).rows = ann.numberOfLines := by
  unfold get_swath_mask
  rw [foldl_applyBounds_rows]
  rfl

theorem get_swath_mask_cols (ann : AnnotationData) (s : String) :
    (get_swath_mask ann s).cols = ann.numberOfSamples := by
  unfold get_swath_mask
  rw [foldl_applyBounds_cols]
  rfl

theorem get_swath_mask_val (ann : AnnotationData) (s : String) (y x : Nat) :
    (get_swath_mask ann s).val y x = if coversPt ann s y x then 1 else 0 := by
  unfold get_swath_mask coversPt
  rw [foldl_applyBounds_val]
  rfl

theorem coversPt_lt (ann : AnnotationData) (s : String) (y x : Nat)
    (h : coversPt ann s y x) :
    y < ann.numberOfLines ∧ x < ann.numberOfSamples := by
  obtain ⟨sb, -, hy, hx⟩ := h
  exact ⟨lt_of_lt_of_le hy.2 (sliceNorm_le _ _),
    lt_of_lt_of_le hx.2 (sliceNorm_le _ _)⟩

theorem build_swath_mask_go_val (ann : AnnotationData) (y x : Nat) :
    ∀ (rest : List String) (i : Nat) (acc : Grid), acc.val y x < 256 →
      (build_swath_mask_go ann acc i rest).val y x =
        (acc.val y x + (coveringOrdinals ann y x i rest).sum) % 256 := by
  intro rest
  induction rest with
  | nil =>
    intro i acc hacc
    simp [build_swath_mask_go, coveringOrdinals, Nat.mod_eq_of_lt hacc]
  | cons s rest ih =>
    intro i acc hacc
    rw [build_swath_mask_go]
    rw [ih (i + 1) _ (by simp [gridAddU8]; omega)]
    simp only [gridAddU8, gridSmulU8, coveringOrdinals, List.sum_append]
    rw [get_swath_mask_val]
    by_cases hc : coversPt ann s y x
    · simp only [hc, if_true, mul_one, List.sum_cons, List.sum_nil]
      omega
    · simp only [hc, if_false, mul_zero, List.sum_nil]
      omega

theorem build_swath_mask_val (ann : AnnotationData) (s : String)
    (rest : List String) (y x : Nat) :
    (build_swath_mask ann (s :: rest)).val y x =
      (coveringOrdinals ann y x 1 (s :: rest)).sum % 256 := by
  rw [build_swath_mask]
  rw [build_swath_mask_go_val ann y x rest 2 _
    (by rw [get_swath_mask_val]; split <;> omega)]
  rw [get_swath_mask_val]
  simp only [coveringOrdinals, List.sum_append]
  by_cases hc : coversPt ann s y x
  · simp [hc]
  · simp [hc]

theorem coveringOrdinals_sum_le (ann : AnnotationData) (y x : Nat) :
    ∀ (l : List String) (i : Nat),
      (coveringOrdinals ann y x i l).sum ≤ (i + l.length) * l.length := by
  intro l
  induction l with
  | nil => simp [coveringOrdinals]
  | cons s rest ih =>
    intro i
    rw [coveringOrdinals]
    rw [List.sum_append]
    have h1 : (if coversPt ann s y x then [i] else []).sum ≤ i := by
      split <;> simp
    have h2 := ih (i + 1)
    simp only [List.length_cons]
    nlinarith [h1, h2]

theorem coveringOrdinals_nil_of_not_covered (ann : AnnotationData) (y x : Nat) :
    ∀ (l : List String) (i : Nat), (∀ s ∈ l, ¬coversPt ann s y x) →
      coveringOrdinals ann y x i l = [] := by
  intro l
  induction l with
  | nil => intro i _; rfl
  | cons s rest ih =>
    intro i h
    rw [coveringOrdinals]
    rw [if_neg (h s (List.mem_cons_self s rest))]
    rw [ih (i + 1) (fun t ht => h t (List.mem_cons_of_mem s ht))]
    rfl

/-- C1: for the swath lists of the supported acquisition modes (EW1..EW5 and
IW1..IW3), the accumulated raster value at any pixel equals the sum of the
1-based ordinals of the swaths whose bounding boxes cover it; in particular
an uncovered pixel is 0 and a pixel covered by exactly one swath carries that
swath's ordinal (overlaps add, they do not take the maximum). -/
theorem swath_mask_pixel_is_ordinal_sum (mode : String) (sw : List String)
    (h : swathNames mode = some sw) (ann : AnnotationData) (y x : Nat) :
    (build_swath_mask ann sw).val y x = (coveringOrdinals ann y x 1 sw).sum ∧
    ((∀ s ∈ sw, ¬coversPt ann s y x) → (build_swath_mask ann sw).val y x = 0) ∧
    (∀ k, coveringOrdinals ann y x 1 sw = [k] →
      (build_swath_mask ann sw).val y x = k) := by
  unfold swathNames at h
  have hmain : (build_swath_mask ann sw).val y x =
      (coveringOrdinals ann y x 1 sw).sum := by
    split_ifs at h with h1 h2
    · cases h
      rw [build_swath_mask_val]
      refine Nat.mod_eq_of_lt ?_
      have := coveringOrdinals_sum_le ann y x ["EW1", "EW2", "EW3", "EW4", "EW5"] 1
      simp only [List.length_cons, List.length_nil] at this
      omega
    · cases h
      rw [build_swath_mask_val]
      refine Nat.mod_eq_of_lt ?_
      have := coveringOrdinals_sum_le ann y x ["IW1", "IW2", "IW3"] 1
      simp only [List.length_cons, List.length_nil] at this
      omega
  refine ⟨hmain, ?_, ?_⟩
  · intro hnone
    rw [hmain, coveringOrdinals_nil_of_not_covered ann y x sw 1 hnone]
    rfl
  · intro k hk
    rw [hmain, hk]
    simp

theorem swath_mask_pixel_is_ordinal_sum_witness :
    swathNames "EW" = some ["EW1", "EW2", "EW3", "EW4", "EW5"] ∧
    (build_swath_mask annEx ["EW1", "EW2", "EW3", "EW4", "EW5"]).val 0 2 =
      (coveringOrdinals annEx 0 2 1 ["EW1", "EW2", "EW3", "EW4", "EW5"]).sum ∧
    (build_swath_mask annEx ["EW1", "EW2", "EW3", "EW4", "EW5"]).val 0 2 = 3 :=
  ⟨by decide,
   (swath_mask_pixel_is_ordinal_sum "EW" _ (by decide) annEx 0 2).1,
   by decide⟩

/-- C9: with a valid polarization the single-swath mask never fails: it is a
raster of exactly the annotated shape, every entry is 0 or 1, and pixels
outside the annotated shape are never written, whatever the bounding boxes
contain. -/
theorem get_swath_mask_shape_values (ann : AnnotationData) (swath pol : String)
    (h : pyUpper pol ∈ ["HH", "HV", "VH", "VV"]) :
    get_swath_mask_checked ann swath pol = some (get_swath_mask ann swath) ∧
    (get_swath_mask ann swath).rows = ann.numberOfLines ∧
    (get_swath_mask ann swath).cols = ann.numberOfSamples ∧
    (∀ y x, (get_swath_mask ann swath).val y x = 0 ∨
      (get_swath_mask ann swath).val y x = 1) ∧
    (∀ y x, ann.numberOfLines ≤ y ∨ ann.numberOfSamples ≤ x →
      (get_swath_mask ann swath).val y x = 0) := by
  refine ⟨by unfold get_swath_mask_checked; rw [if_pos h],
    get_swath_mask_rows _ _, get_swath_mask_cols _ _, ?_, ?_⟩
  · intro y x
    rw [get_swath_mask_val]
    split
    · right; rfl
    · left; rfl
  · intro y x hout
    rw [get_swath_mask_val]
    rw [if_neg]
    intro hc
    have := coversPt_lt ann swath y x hc
    omega

theorem get_swath_mask_shape_values_witness :
    pyUpper "hh" ∈ ["HH", "HV", "VH", "VV"] ∧
    get_swath_mask_checked annEx2 "EW1" "hh" =
      some (get_swath_mask annEx2 "EW1") ∧
    (get_swath_mask annEx2 "EW1").rows = 4 ∧
    ((get_swath_mask annEx2 "EW1").val 3 5 = 0 ∨
      (get_swath_mask annEx2 "EW1").val 3 5 = 1) ∧
    (get_swath_mask annEx2 "EW1").val 4 0 = 0 :=
  ⟨by decide,
   (get_swath_mask_shape_values annEx2 "EW1" "hh" (by decide)).1,
   (get_swath_mask_shape_values annEx2 "EW1" "hh" (by decide)).2.1,
   (get_swath_mask_shape_values annEx2 "EW1" "hh" (by decide)).2.2.2.1 3 5,
   (get_swath_mask_shape_values annEx2 "EW1" "hh" (by decide)).2.2.2.2 4 0
     (by decide)⟩

/-- C5 counterexample: a folder with two files matching the annotation
pattern is not a hard failure; the lookup silently returns the first match. -/
theorem annotation_lookup_ambiguous_not_failure :
    (["s1a-ew-grd-hh-0001.xml", "s1a-ew-grd-hh-0002.xml"].filter (fun f =>
      globMatch ("s1*" ++ pyLower "HH" ++ "*.xml").toList f.toList)).length = 2 ∧
    annotation_path_from_manifest_path
      ["s1a-ew-grd-hh-0001.xml", "s1a-ew-grd-hh-0002.xml"] "HH" =
      some "s1a-ew-grd-hh-0001.xml" := by
  decide

/-- C5 amended: the lookup fails (an `IndexError`, modelled as `none`)
exactly when no file in the annotation folder matches the pattern; whenever
at least one file matches — including ambiguous cases with several matches —
it returns a matching member of the folder (the first in listing order), not
a failure. -/
theorem annotation_lookup_amended (dir : List String) (pol : String) :
    (annotation_path_from_manifest_path dir pol = none ↔
      ∀ f ∈ dir,
        ¬globMatch ("s1*" ++ pyLower pol ++ "*.xml").toList f.toList = true) ∧
    (∀ f, annotation_path_from_manifest_path dir pol = some f →
      f ∈ dir ∧
        globMatch ("s1*" ++ pyLower pol ++ "*.xml").toList f.toList = true) := by
  unfold annotation_path_from_manifest_path
  constructor
  · rw [List.head?_eq_none_iff, List.filter_eq_nil_iff]
  · intro f hf
    have hmem : f ∈ dir.filter (fun f =>
        globMatch ("s1*" ++ pyLower pol ++ "*.xml").toList f.toList) := by
      cases hl : dir.filter (fun f =>
          globMatch ("s1*" ++ pyLower pol ++ "*.xml").toList f.toList) with
      | nil => rw [hl] at hf; cases hf
      | cons a l =>
        rw [hl] at hf
        simp only [List.head?_cons, Option.some.injEq] at hf
        rw [← hf]
        exact List.mem_cons_self a l
    have := List.mem_filter.mp hmem
    exact ⟨this.1, by simpa using this.2⟩

theorem annotation_lookup_amended_witness :
    "s1a-ew-grd-hh-0001.xml" ∈ ["s1a-ew-grd-hh-0001.xml"] ∧
    globMatch ("s1*" ++ pyLower "HH" ++ "*.xml").toList
      "s1a-ew-grd-hh-0001.xml".toList = true :=
  (annotation_lookup_amended ["s1a-ew-grd-hh-0001.xml"] "HH").2 _ (by decide)

/-- C7: for a basename with at least four underscore-separated fields, the
resolver follows exactly the fixed polarization table and the mode set
{SM, IW, EW, WV}; any unknown polarization code or mode yields the
unresolved-identity value, whose three fields are the empty sentinels. -/
theorem product_info_matches_table (f_base : String)
    (h : 4 ≤ (pySplit '_' f_base).length) :
    get_S1_product_info f_base =
      (match specPolTable ((pySplit '_' f_base).getD 3 "") with
       | some pols =>
         if (pySplit '_' f_base).getD 1 "" ∈ ["SM", "IW", "EW", "WV"] then
           ProductInfo.resolved ((pySplit '_' f_base).getD 1 "")
             ((pySplit '_' f_base).getD 2 "") pols
         else ProductInfo.unresolved
       | none => ProductInfo.unresolved) ∧
    ProductInfo.unresolved.mode = "" ∧
    ProductInfo.unresolved.ptype = "" ∧
    ProductInfo.unresolved.pols = [] := by
  refine ⟨?_, rfl, rfl, rfl⟩
  simp only [get_S1_product_info, specPolTable]
  rw [if_neg (by omega)]
  split
  · rename_i heq
    simp only [heq]
  · rename_i pols heq
    simp only [heq]
    by_cases hm : (pySplit '_' f_base).getD 1 "" ∈ ["SM", "IW", "EW", "WV"]
    · rw [if_neg (not_not_intro hm), if_pos hm]
    · rw [if_pos hm, if_neg hm]

theorem product_info_matches_table_witness :
    4 ≤ (pySplit '_' "S1A_EW_GRDM_1SDH_20220501T120000_X").length ∧
    get_S1_product_info "S1A_EW_GRDM_1SDH_20220501T120000_X" =
      ProductInfo.resolved "EW" "GRDM" ["HH", "HV"] :=
  ⟨by decide,
   by
    rw [(product_info_matches_table "S1A_EW_GRDM_1SDH_20220501T120000_X"
      (by decide)).1]
    decide⟩

/-- C8: the channel scaling first clips into `[mn, mx]` and then rescales
affinely, so the value `mn` maps exactly to `newMn`, the value `mx` maps
exactly to `newMx`, and values beyond either bound map as the nearer bound
does. -/
theorem scale_channel_boundary_exact (v mn mx newMn newMx : ℚ)
    (h : mn < mx) :
    scale_channel mn mn mx newMn newMx = newMn ∧
    scale_channel mx mn mx newMn newMx = newMx ∧
    (v < mn → scale_channel v mn mx newMn newMx = newMn) ∧
    (mx < v → scale_channel v mn mx newMn newMx = newMx) := by
  have hne : mx - mn ≠ 0 := sub_ne_zero_of_ne (ne_of_gt h)
  unfold scale_channel clipAbove clipBelow
  refine ⟨?_, ?_, ?_, ?_⟩
  · rw [if_neg (lt_irrefl mn), if_neg (not_lt.mpr h.le)]
    ring
  · rw [if_neg (not_lt.mpr h.le), if_neg (lt_irrefl mx)]
    field_simp
  · intro hv
    rw [if_pos hv, if_neg (not_lt.mpr h.le)]
    ring
  · intro hv
    rw [if_neg (not_lt.mpr (h.trans hv).le), if_pos hv]
    field_simp

theorem scale_channel_boundary_exact_witness :
    (-30 : ℚ) < 0 ∧
    scale_channel (-30) (-30) 0 0 255 = 0 ∧
    scale_channel 0 (-30) 0 0 255 = 255 ∧
    scale_channel 5 (-30) 0 0 255 = 255 := by
  have h := scale_channel_boundary_exact 5 (-30) 0 0 255 (by norm_num)
  exact ⟨by norm_num, h.1, h.2.1, h.2.2.2 (by norm_num)⟩

/-- C10 counterexample: when the ambient process environment already defines
`GPT`, a selected `.env` file that does not set the variable makes
`get_GPT_path` return the ambient value, not the hard-coded default. -/
theorem get_GPT_path_ambient_not_default :
    get_GPT_path "installation"
      ⟨some ⟨none⟩, none, some "/custom/gpt"⟩ = "/custom/gpt" ∧
    "/custom/gpt" ≠ GPT_default := by
  decide

/-- C10 amended: `get_GPT_path` is total and never reports failure; it
returns the hard-coded default for an invalid `dotenv_location`, for a
missing `.env` at the selected location (after the installation→local
fallback), and for a selected `.env` without a `GPT` entry provided the
ambient process environment does not define `GPT`; when the `.env` sets
`GPT` its value is returned, and when only the ambient environment sets it
the ambient value is returned. -/
theorem get_GPT_path_amended (loc : String) (env : GptEnv) :
    (loc ∉ ["installation", "local"] → get_GPT_path loc env = GPT_default) ∧
    (loc = "installation" → env.installEnv = none → env.localEnv = none →
      get_GPT_path loc env = GPT_default) ∧
    (loc = "local" → env.localEnv = none →
      get_GPT_path loc env = GPT_default) ∧
    (∀ f, loc = "installation" → env.installEnv = some f → f.gpt = none →
      env.environGPT = none → get_GPT_path loc env = GPT_default) ∧
    (∀ f v, loc = "installation" → env.installEnv = some f →
      f.gpt = some v → get_GPT_path loc env = v) ∧
    (∀ f g, loc = "installation" → env.installEnv = some f → f.gpt = none →
      env.environGPT = some g → get_GPT_path loc env = g) ∧
    (∀ f, loc = "local" → env.localEnv = some f → f.gpt = none →
      env.environGPT = none → get_GPT_path loc env = GPT_default) ∧
    (∀ f v, loc = "local" → env.localEnv = some f → f.gpt = some v →
      get_GPT_path loc env = v) := by
  refine ⟨?_, ?_, ?_, ?_, ?_, ?_, ?_, ?_⟩
  · intro h
    unfold get_GPT_path
    rw [if_pos h]
  · intro h h1 h2
    subst h
    simp [get_GPT_path, h1, h2]
  · intro h h1
    subst h
    simp [get_GPT_path, h1]
  · intro f h h1 h2 h3
    subst h
    simp [get_GPT_path, h1, h2, h3]
  · intro f v h h1 h2
    subst h
    simp [get_GPT_path, h1, h2]
  · intro f g h h1 h2 h3
    subst h
    simp [get_GPT_path, h1, h2, h3]
  · intro f h h1 h2 h3
    subst h
    simp [get_GPT_path, h1, h2, h3]
  · intro f v h h1 h2
    subst h
    simp [get_GPT_path, h1, h2]

theorem get_GPT_path_amended_witness :
    get_GPT_path "elsewhere" ⟨none, none, none⟩ = GPT_default ∧
    get_GPT_path "local" ⟨none, some ⟨some "/opt/snap/gpt"⟩, none⟩ =
      "/opt/snap/gpt" :=
  ⟨(get_GPT_path_amended "elsewhere" ⟨none, none, none⟩).1 (by decide),
   (get_GPT_path_amended "local" ⟨none, some ⟨some "/opt/snap/gpt"⟩, none⟩).2.2.2.2.2.2.2
     ⟨some "/opt/snap/gpt"⟩ "/opt/snap/gpt" rfl rfl rfl⟩

theorem intensity_skip (S1_safe_zip intensity ML : String)
    (dB dry_run : Bool) (fs : FS)
    (hpre : intensityPreOk S1_safe_zip intensity fs)
    (himg : intensityImg intensity dB ∈ fs.files) :
    get_S1_intensity S1_safe_zip intensity ML dB false dry_run fs =
      ⟨.retTrue, fs, 0⟩ := by
  obtain ⟨h1, h2, h3, h4, h5⟩ := hpre
  simp only [get_S1_intensity]
  rw [if_neg (not_not_intro h1), if_neg (by simp [h2]), if_neg (by simp [h3]),
    if_neg (not_not_intro h4), if_neg (not_not_intro h5)]
  rw [if_pos]
  exact ⟨by simpa [intensityImg] using himg, by simp⟩

theorem IA_skip (S1_safe_zip : String) (dry_run : Bool) (fs : FS)
    (h2 : fs.gpt_exists = true) (h3 : fs.safe_exists = true)
    (h5 : lstripDot (pathSuffix S1_safe_zip) ∈ ["SAFE", "zip"])
    (himg : "IA.img" ∈ fs.files) :
    get_S1_IA S1_safe_zip false dry_run fs = ⟨.retTrue, fs, 0⟩ := by
  simp only [get_S1_IA]
  rw [if_neg (by simp [h2]), if_neg (by simp [h3]), if_neg (not_not_intro h5)]
  rw [if_pos]
  exact ⟨himg, by simp⟩

theorem latlon_skip (S1_safe_zip : String) (dry_run : Bool) (fs : FS)
    (h2 : fs.gpt_exists = true) (h3 : fs.safe_exists = true)
    (h5 : lstripDot (pathSuffix S1_safe_zip) ∈ ["SAFE", "zip"])
    (hlat : "lat.img" ∈ fs.files) (hlon : "lon.img" ∈ fs.files) :
    get_S1_lat_lon S1_safe_zip false dry_run fs = ⟨.retNone, fs, 0⟩ := by
  simp only [get_S1_lat_lon]
  rw [if_neg (by simp [h2]), if_neg (by simp [h3]), if_neg (not_not_intro h5)]
  rw [if_pos]
  exact ⟨hlat, hlon, by simp⟩

theorem swath_skip (S1_safe_zip : String) (fs : FS)
    (h3 : fs.safe_exists = true)
    (h5 : lstripDot (pathSuffix S1_safe_zip) ∈ ["SAFE", "zip"])
    (himg : "swath_mask.img" ∈ fs.files) :
    get_S1_swath_mask S1_safe_zip false fs = ⟨.retTrue, fs, 0⟩ := by
  simp only [get_S1_swath_mask]
  rw [if_neg (by simp [h3]), if_neg (not_not_intro h5)]
  rw [if_pos]
  exact ⟨himg, by simp⟩

set_option maxHeartbeats 2000000 in
theorem get_S1_intensity_outcomes (S1_safe_zip intensity ML : String)
    (dB overwrite dry_run : Bool) (fs : FS) :
    (get_S1_intensity S1_safe_zip intensity ML dB overwrite dry_run fs =
      ⟨.retFalse, fs, 0⟩) ∨
    (intensityImg intensity dB ∈ fs.files ∧ overwrite = false ∧
      get_S1_intensity S1_safe_zip intensity ML dB overwrite dry_run fs =
        ⟨.retTrue, fs, 0⟩) ∨
    (get_S1_intensity S1_safe_zip intensity ML dB overwrite dry_run fs =
      ⟨.retFalse, { fs with feat_exists := true, tmp_exists := true }, 0⟩) ∨
    (dry_run = true ∧
      get_S1_intensity S1_safe_zip intensity ML dB overwrite dry_run fs =
        ⟨.retTrue, { fs with feat_exists := true, tmp_exists := false }, 0⟩) ∨
    (mlAccept ML = true ∧ dry_run = false ∧
      get_S1_intensity S1_safe_zip intensity ML dB overwrite dry_run fs =
      ⟨.retTrue,
        { fs with
          feat_exists := true
          tmp_exists := false
          files := insertFile (intensityHdr intensity dB)
            (insertFile (intensityImg intensity dB) fs.files) }, 1⟩) := by
  simp only [get_S1_intensity, intensityImg, intensityHdr]
  by_cases h1 : intensity ∈ ["HH", "HV", "VH", "VV"]
  case neg => rw [if_pos h1]; exact Or.inl rfl
  rw [if_neg (not_not_intro h1)]
  by_cases h2 : fs.gpt_exists = true
  case neg => rw [if_pos h2]; exact Or.inl rfl
  rw [if_neg (not_not_intro h2)]
  by_cases h3 : fs.safe_exists = true
  case neg => rw [if_pos h3]; exact Or.inl rfl
  rw [if_neg (not_not_intro h3)]
  by_cases h4 : intensity ∈ (get_S1_product_info (pathStem S1_safe_zip)).pols
  case neg => rw [if_pos h4]; exact Or.inl rfl
  rw [if_neg (not_not_intro h4)]
  by_cases h5 : lstripDot (pathSuffix S1_safe_zip) ∈ ["SAFE", "zip"]
  case neg => rw [if_pos h5]; exact Or.inl rfl
  rw [if_neg (not_not_intro h5)]
  by_cases h6 : "Sigma0_" ++ intensity ++ (if dB then "_dB" else "") ++ ".img"
      ∈ fs.files ∧ ¬overwrite
  case pos =>
    rw [if_pos h6]
    exact Or.inr (Or.inl ⟨h6.1, by simpa using h6.2, rfl⟩)
  rw [if_neg h6]
  rcases hml : mlLooks ML with _ | ⟨rg, az⟩
  · simp only [hml]
    exact Or.inr (Or.inr (Or.inl trivial))
  · simp only [hml]
    by_cases h7 : rg % 2 = 0 ∨ az % 2 = 0
    case pos => rw [if_pos h7]; exact Or.inr (Or.inr (Or.inl rfl))
    rw [if_neg h7]
    rcases hkey : S1_conf_attr ("snap_S1_" ++
        (get_S1_product_info (pathStem S1_safe_zip)).mode ++ "_" ++
        (get_S1_product_info (pathStem S1_safe_zip)).ptype ++ "_NR_Cal" ++
        (if rg > 1 then "_Spk" else "") ++ (if dB then "_dB" else "") ++
        "_XX") with _ | gf
    · simp only [hkey]
      exact Or.inr (Or.inr (Or.inl trivial))
    · simp only [hkey]
      by_cases h8 : gf ∈ fs.graph_files
      case neg => rw [if_pos h8]; exact Or.inr (Or.inr (Or.inl rfl))
      rw [if_neg (not_not_intro h8)]
      by_cases h9 : dry_run = true
      case pos =>
        rw [if_pos h9]
        exact Or.inr (Or.inr (Or.inr (Or.inl ⟨h9, rfl⟩)))
      rw [if_neg h9]
      refine Or.inr (Or.inr (Or.inr (Or.inr ⟨?_, by simpa using h9, rfl⟩)))
      unfold mlAccept
      rw [hml]
      simpa using h7

theorem mem_insertFile_self (n : String) (l : List String) :
    n ∈ insertFile n l := by
  unfold insertFile
  split
  · assumption
  · exact List.mem_cons_self _ _

theorem mem_insertFile_of_mem (m n : String) (l : List String) (h : n ∈ l) :
    n ∈ insertFile m l := by
  unfold insertFile
  split
  · exact h
  · exact List.mem_cons_of_mem _ h

set_option maxHeartbeats 2000000 in
/-- C4: with the preconditions satisfied, every staged operation whose target
artifact already exists is, under `overwrite=false`, a no-op reporting its
success value (`True`, or `None` for lat/lon, whose completion value is also
`None`) with the state untouched and no engine call; one intensity invocation
performs at most one engine call, and after a successful non-dry run a second
run with `overwrite=false` is exactly such a no-op skip. -/
theorem overwrite_false_skip_idempotent (S1_safe_zip intensity ML : String)
    (dB dry_run : Bool) (fs : FS)
    (hpre : intensityPreOk S1_safe_zip intensity fs) :
    (intensityImg intensity dB ∈ fs.files →
      get_S1_intensity S1_safe_zip intensity ML dB false dry_run fs =
        ⟨.retTrue, fs, 0⟩) ∧
    ("IA.img" ∈ fs.files →
      get_S1_IA S1_safe_zip false dry_run fs = ⟨.retTrue, fs, 0⟩) ∧
    ("lat.img" ∈ fs.files → "lon.img" ∈ fs.files →
      get_S1_lat_lon S1_safe_zip false dry_run fs = ⟨.retNone, fs, 0⟩) ∧
    ("swath_mask.img" ∈ fs.files →
      get_S1_swath_mask S1_safe_zip false fs = ⟨.retTrue, fs, 0⟩) ∧
    (get_S1_intensity S1_safe_zip intensity ML dB false dry_run fs).engine_calls ≤ 1 ∧
    (dry_run = false →
      (get_S1_intensity S1_safe_zip intensity ML dB false dry_run fs).ret = .retTrue →
      get_S1_intensity S1_safe_zip intensity ML dB false dry_run
          (get_S1_intensity S1_safe_zip intensity ML dB false dry_run fs).fs =
        ⟨.retTrue,
          (get_S1_intensity S1_safe_zip intensity ML dB false dry_run fs).fs, 0⟩) := by
  obtain ⟨hp1, hp2, hp3, hp4, hp5⟩ := hpre
  refine ⟨fun h => intensity_skip _ _ _ _ _ _ ⟨hp1, hp2, hp3, hp4, hp5⟩ h,
    fun h => IA_skip _ _ _ hp2 hp3 hp5 h,
    fun h1 h2 => latlon_skip _ _ _ hp2 hp3 hp5 h1 h2,
    fun h => swath_skip _ _ hp3 hp5 h, ?_, ?_⟩
  · rcases get_S1_intensity_outcomes S1_safe_zip intensity ML dB false dry_run fs
      with h | ⟨_, _, h⟩ | h | ⟨_, h⟩ | ⟨_, _, h⟩ <;> rw [h] <;> simp
  · intro hnd hret
    rcases get_S1_intensity_outcomes S1_safe_zip intensity ML dB false dry_run fs
      with h | ⟨himg, _, h⟩ | h | ⟨hdry, h⟩ | ⟨_, _, h⟩
    · rw [h] at hret; cases hret
    · rw [h]
      exact intensity_skip _ _ _ _ _ _ ⟨hp1, hp2, hp3, hp4, hp5⟩ himg
    · rw [h] at hret; cases hret
    · rw [hdry] at hnd; cases hnd
    · rw [h]
      exact intensity_skip _ _ _ _ _ _ ⟨hp1, hp2, hp3, hp4, hp5⟩
        (mem_insertFile_of_mem _ _ _ (mem_insertFile_self _ _))

set_option maxHeartbeats 2000000 in
/-- C2 amended: starting without a stale scratch directory, every exit that
reports success (skip, dry-run, completion) leaves no scratch directory, and
whenever the scratch directory survives the invocation the return value is
the error `False`: the failure exits taken after scratch creation (malformed
multilook string, even looks, unknown recipe key, missing template file)
return without removing it. -/
theorem intensity_scratch_cleanup (S1_safe_zip intensity ML : String)
    (dB overwrite dry_run : Bool) (fs : FS)
    (hfresh : fs.tmp_exists = false) :
    ((get_S1_intensity S1_safe_zip intensity ML dB overwrite dry_run fs).ret = .retTrue →
      (get_S1_intensity S1_safe_zip intensity ML dB overwrite dry_run fs).fs.tmp_exists = false) ∧
    ((get_S1_intensity S1_safe_zip intensity ML dB overwrite dry_run fs).fs.tmp_exists = true →
      (get_S1_intensity S1_safe_zip intensity ML dB overwrite dry_run fs).ret = .retFalse) := by
  rcases get_S1_intensity_outcomes S1_safe_zip intensity ML dB overwrite dry_run fs
    with h | ⟨_, _, h⟩ | h | ⟨_, h⟩ | ⟨_, _, h⟩ <;> rw [h] <;>
    constructor <;> intro hx <;> simp_all

/-- C2 counterexample: an invocation that creates the scratch directory and
then fails on the malformed multilook string `"axb"` returns the error with
the scratch directory still present. -/
theorem intensity_scratch_left_on_ml_failure :
    (get_S1_intensity "S1A_EW_GRDM_1SDH_20220501T120000_ABCD.zip" "HH" "axb"
      false false false fsEx).ret = .retFalse ∧
    (get_S1_intensity "S1A_EW_GRDM_1SDH_20220501T120000_ABCD.zip" "HH" "axb"
      false false false fsEx).fs.tmp_exists = true ∧
    fsEx.tmp_exists = false := by
  decide

set_option maxHeartbeats 2000000 in
/-- C3 amended: failing any of the five preconditions that are checked first
(valid intensity name, engine executable, input product, supported
polarization, supported file type) returns `False` with the filesystem state
untouched; the malformed-multilook check, however, runs only after the
feature directory and the scratch workspace have been created, so that error
return leaves both behind. -/
theorem intensity_precondition_order (S1_safe_zip intensity ML : String)
    (dB overwrite dry_run : Bool) (fs : FS) :
    (¬intensityPreOk S1_safe_zip intensity fs →
      get_S1_intensity S1_safe_zip intensity ML dB overwrite dry_run fs =
        ⟨.retFalse, fs, 0⟩) ∧
    (intensityPreOk S1_safe_zip intensity fs →
      ¬(intensityImg intensity dB ∈ fs.files ∧ ¬overwrite) →
      mlAccept ML = false →
      get_S1_intensity S1_safe_zip intensity ML dB overwrite dry_run fs =
        ⟨.retFalse, { fs with feat_exists := true, tmp_exists := true }, 0⟩) := by
  constructor
  · intro hnp
    simp only [get_S1_intensity]
    by_cases h1 : intensity ∈ ["HH", "HV", "VH", "VV"]
    case neg => rw [if_pos h1]
    rw [if_neg (not_not_intro h1)]
    by_cases h2 : fs.gpt_exists = true
    case neg => rw [if_pos h2]
    rw [if_neg (not_not_intro h2)]
    by_cases h3 : fs.safe_exists = true
    case neg => rw [if_pos h3]
    rw [if_neg (not_not_intro h3)]
    by_cases h4 : intensity ∈ (get_S1_product_info (pathStem S1_safe_zip)).pols
    case neg => rw [if_pos h4]
    rw [if_neg (not_not_intro h4)]
    by_cases h5 : lstripDot (pathSuffix S1_safe_zip) ∈ ["SAFE", "zip"]
    case neg => rw [if_pos h5]
    exact absurd ⟨h1, h2, h3, h4, h5⟩ hnp
  · intro hp hskip hml
    obtain ⟨h1, h2, h3, h4, h5⟩ := hp
    simp only [get_S1_intensity]
    rw [if_neg (not_not_intro h1), if_neg (not_not_intro h2),
      if_neg (not_not_intro h3), if_neg (not_not_intro h4),
      if_neg (not_not_intro h5)]
    rw [if_neg (by simpa [intensityImg] using hskip)]
    rcases hml2 : mlLooks ML with _ | ⟨rg, az⟩
    · simp only [hml2]
    · simp only [hml2]
      by_cases hodd : rg % 2 = 0 ∨ az % 2 = 0
      · rw [if_pos hodd]
      · exfalso
        apply absurd hml
        unfold mlAccept
        rw [hml2]
        push_neg at hodd
        simp
        omega

/-- C3 counterexample: with every claimed precondition except the multilook
string satisfied, the invocation with `ML="2x1"` returns the error having
already created the feature directory and the scratch workspace. -/
theorem intensity_fs_modified_on_bad_ml :
    (get_S1_intensity "S1A_IW_GRDH_1SDV_20220501T120000_ABCD.zip" "VV" "2x1"
      false false false fsEx2).ret = .retFalse ∧
    (get_S1_intensity "S1A_IW_GRDH_1SDV_20220501T120000_ABCD.zip" "VV" "2x1"
      false false false fsEx2).fs ≠ fsEx2 ∧
    (get_S1_intensity "S1A_IW_GRDH_1SDV_20220501T120000_ABCD.zip" "VV" "2x1"
      false false false fsEx2).fs.feat_exists = true ∧
    (get_S1_intensity "S1A_IW_GRDH_1SDV_20220501T120000_ABCD.zip" "VV" "2x1"
      false false false fsEx2).fs.tmp_exists = true ∧
    fsEx2.feat_exists = false ∧ fsEx2.tmp_exists = false := by
  decide

/-- C6 counterexample: the string `"3x3x3"` is accepted by the code (the
first two `'x'`-fields parse as the odd integers 3 and 3, the third field is
ignored) although it does not have the form `RxA` with both parts integers. -/
theorem mlAccept_not_form_RxA :
    mlAccept "3x3x3" = true ∧ specFormRxA "3x3x3" = false := by
  decide

/-- C6 amended: a multilook string is accepted exactly when splitting on
`'x'` yields at least two fields and the FIRST TWO fields parse as integers
that are both odd (any further fields are ignored); `"2x1"`, `"1x2"` and
non-numeric strings are rejected, and with a rejected multilook string no
engine invocation ever happens. -/
theorem mlAccept_amended (ML : String) :
    (mlAccept ML = true ↔
      2 ≤ (pySplit 'x' ML).length ∧
      ∃ r t : Int, pyInt? ((pySplit 'x' ML).getD 0 "") = some r ∧
        pyInt? ((pySplit 'x' ML).getD 1 "") = some t ∧
        ¬r % 2 = 0 ∧ ¬t % 2 = 0) ∧
    mlAccept "2x1" = false ∧ mlAccept "1x2" = false ∧
    mlAccept "axb" = false ∧
    (∀ (S1_safe_zip intensity : String) (dB overwrite dry_run : Bool) (fs : FS),
      mlAccept ML = false →
      (get_S1_intensity S1_safe_zip intensity ML dB overwrite dry_run fs).engine_calls = 0) := by
  refine ⟨?_, by decide, by decide, by decide, ?_⟩
  · unfold mlAccept mlLooks
    rcases hp : pySplit 'x' ML with _ | ⟨a, _ | ⟨b, rest2⟩⟩
    · simp [hp]
    · simp [hp]
    · simp only [hp]
      rcases hA : pyInt? a with _ | r
      · simp [hA]
      · rcases hB : pyInt? b with _ | t
        · simp [hA, hB]
        · simp [hA, hB]
  · intro S1 pol dB' ov dr fs h
    rcases get_S1_intensity_outcomes S1 pol ML dB' ov dr fs with
      h1 | ⟨_, _, h1⟩ | h1 | ⟨_, h1⟩ | ⟨hacc, _, h1⟩
    · rw [h1]
    · rw [h1]
    · rw [h1]
    · rw [h1]
    · rw [hacc] at h; cases h

theorem mlAccept_amended_witness :
    mlAccept "3x5" = true ∧
    (get_S1_intensity "q.zip" "HH" "2x2" false false false fsEx2).engine_calls = 0 :=
  ⟨(mlAccept_amended "3x5").1.mpr (by refine ⟨by decide, 3, 5, ?_, ?_, ?_, ?_⟩ <;> decide),
   (mlAccept_amended "2x2").2.2.2.2 "q.zip" "HH" false false false fsEx2 (by decide)⟩

theorem overwrite_false_skip_idempotent_witness :
    intensityPreOk "S1A_EW_GRDM_1SDH_20220501T120000_ABCD.zip" "HH" fsAll ∧
    get_S1_intensity "S1A_EW_GRDM_1SDH_20220501T120000_ABCD.zip" "HH" "1x1"
      false false false fsAll = ⟨.retTrue, fsAll, 0⟩ ∧
    get_S1_IA "S1A_EW_GRDM_1SDH_20220501T120000_ABCD.zip" false false fsAll =
      ⟨.retTrue, fsAll, 0⟩ ∧
    get_S1_lat_lon "S1A_EW_GRDM_1SDH_20220501T120000_ABCD.zip" false false fsAll =
      ⟨.retNone, fsAll, 0⟩ ∧
    get_S1_swath_mask "S1A_EW_GRDM_1SDH_20220501T120000_ABCD.zip" false fsAll =
      ⟨.retTrue, fsAll, 0⟩ :=
  ⟨by decide,
   (overwrite_false_skip_idempotent "S1A_EW_GRDM_1SDH_20220501T120000_ABCD.zip"
     "HH" "1x1" false false fsAll (by decide)).1 (by decide),
   (overwrite_false_skip_idempotent "S1A_EW_GRDM_1SDH_20220501T120000_ABCD.zip"
     "HH" "1x1" false false fsAll (by decide)).2.1 (by decide),
   (overwrite_false_skip_idempotent "S1A_EW_GRDM_1SDH_20220501T120000_ABCD.zip"
     "HH" "1x1" false false fsAll (by decide)).2.2.1 (by decide) (by decide),
   (overwrite_false_skip_idempotent "S1A_EW_GRDM_1SDH_20220501T120000_ABCD.zip"
     "HH" "1x1" false false fsAll (by decide)).2.2.2.1 (by decide)⟩

theorem intensity_scratch_cleanup_witness :
    fsEx.tmp_exists = false ∧
    (get_S1_intensity "S1A_EW_GRDM_1SDH_20220501T120000_ABCD.zip" "HH" "1x1"
      false false true fsEx).fs.tmp_exists = false :=
  ⟨by decide,
   (intensity_scratch_cleanup "S1A_EW_GRDM_1SDH_20220501T120000_ABCD.zip" "HH"
     "1x1" false false true fsEx (by decide)).1 (by decide)⟩

theorem intensity_precondition_order_witness :
    ¬intensityPreOk "S1A_EW_GRDM_1SDH_20220501T120000_ABCD.zip" "VV" fsEx ∧
    get_S1_intensity "S1A_EW_GRDM_1SDH_20220501T120000_ABCD.zip" "VV" "1x1"
      false false false fsEx = ⟨.retFalse, fsEx, 0⟩ :=
  ⟨by decide,
   (intensity_precondition_order "S1A_EW_GRDM_1SDH_20220501T120000_ABCD.zip"
     "VV" "1x1" false false false fsEx).1 (by decide)⟩
